import Mathlib

/-!
Verification of the ThinkTwice pipeline core (Python backend) against its
natural-language specification.

Shallow embedding conventions:
* LLM/search calls are modelled by passing their outcome as an explicit
  argument of type `Except String (Option α)`: `.error e` is a raised
  exception caught by the owning phase's `try/except`, `.ok none` is a
  `None` structured response, `.ok (some raw)` is a parsed tool payload.
* Python dict lookups done with `.get(key, default)` are modelled as
  `Option` fields read with `getD`; direct `d[key]` accesses on fields the
  tool schema marks required are modelled as plain fields.
* Python `int` confidences/scores are `Int`; the float `gate_min_pass_rate`
  and the `pass_rate` ratio are exact rationals (`ℚ`) — the source compares
  IEEE doubles, which agrees with the exact comparison for the small
  integer-ratio values involved.
* Python strings are Lean `String`s manipulated through their char lists;
  `\s`, `str.strip`, `str.lower`, `\d` are modelled on ASCII (the source's
  Unicode-aware variants coincide on the ASCII texts considered here).
-/

namespace ThinkTwice

/-! ## Shared data model (src/backend/core/schemas.py) -/

inductive ClaimVerdict where
  | verified
  | refuted
  | unclear
deriving DecidableEq, Repr

inductive ConstraintType where
  | content
  | reasoning
  | accuracy
  | format
  | tone
deriving DecidableEq, Repr

inductive ConstraintPriority where
  | high
  | medium
  | low
deriving DecidableEq, Repr

structure Constraint where
  id : String
  type : ConstraintType
  description : String
  priority : ConstraintPriority
  verifiable : Bool
deriving DecidableEq, Repr

structure ClaimToVerify where
  id : String
  claim : String
  source_constraint : String
  source_quote : String
deriving DecidableEq, Repr

structure VerificationResultV2 where
  claim_id : String
  claim : String
  web_verdict : ClaimVerdict
  web_source : Option String
  web_explanation : String
  self_verdict : Option ClaimVerdict
  self_derivation : Option String
  combined_verdict : ClaimVerdict
  combined_confidence : Int
  web_verified : Bool
deriving DecidableEq, Repr

/-! ## Verifier (src/backend/core/verifier.py) -/

/-- `_combine_verdicts` (verifier.py lines 74-112): combine web and
self-verification verdicts into `(combined_verdict, confidence)`.
The Python `conf_map.get(v, default)` calls are total over the enum. -/
def combine_verdicts (web_verdict : ClaimVerdict) (self_verdict : Option ClaimVerdict) :
    ClaimVerdict × Int :=
  match self_verdict with
  | none =>
    -- Self-verify disabled, use web verdict alone
    (web_verdict,
      match web_verdict with
      | .verified => 65
      | .refuted => 65
      | .unclear => 30)
  | some s =>
    if web_verdict = s then
      -- Agreement
      (web_verdict,
        match web_verdict with
        | .verified => 90
        | .refuted => 90
        | .unclear => 40)
    else if web_verdict = .verified ∧ s = .unclear then (.verified, 60)
    else if web_verdict = .refuted ∧ s = .unclear then (.refuted, 60)
    else if web_verdict = .unclear ∧ s = .verified then (.verified, 45)
    else if web_verdict = .unclear ∧ s = .refuted then (.refuted, 45)
    else
      -- Direct conflict (verified vs refuted) — mark as unclear
      (.unclear, 25)

/-- The degraded result appended by `Verifier.dual_verify`'s per-claim
`except` handler (verifier.py lines 286-301). -/
def dualVerifyFallback (claim_obj : ClaimToVerify) (e : String) : VerificationResultV2 :=
  { claim_id := claim_obj.id
    claim := claim_obj.claim
    web_verdict := .unclear
    web_source := none
    web_explanation := "Verification failed: " ++ e
    self_verdict := none
    self_derivation := none
    combined_verdict := .unclear
    combined_confidence := 0
    web_verified := false }

/-- `Verifier.dual_verify` (verifier.py lines 253-303). The per-claim dual-track
verification `_verify_single_claim` (an async pipeline of LLM and search calls)
is passed in as `verify_single`; `.error` is an exception escaping it, caught by
the loop's `except` which appends the degraded result. The source's sequential
append loop builds exactly this list in input order. -/
def dual_verify (verify_single : ClaimToVerify → Except String VerificationResultV2)
    (claims : List ClaimToVerify) : List VerificationResultV2 :=
  match claims with
  | [] => []
  | _ =>
    claims.map (fun claim_obj =>
      match verify_single claim_obj with
      | .ok result => result
      | .error e => dualVerifyFallback claim_obj e)

/-! ## Gatekeeper (src/backend/core/gatekeeper.py) -/

structure SubQuestion where
  constraint_id : String
  question : String
  answer : String
  passed : Bool
deriving DecidableEq, Repr

/-- One entry of the tool payload's `sub_questions` array; a missing field
raises `KeyError` in the source's parse loop and the entry is skipped. -/
structure SubQuestionRaw where
  constraint_id : Option String
  question : Option String
  answer : Option String
  passed : Option Bool
deriving DecidableEq, Repr

/-- The gate tool payload. Fields read with `result.get(key, default)` in the
source are `Option`s. -/
structure GateRaw where
  sub_questions : Option (List SubQuestionRaw)
  gate_decision : Option String
  gate_confidence : Option Int
  failing_constraints : Option (List String)
deriving DecidableEq, Repr

structure GateResult where
  sub_questions : List SubQuestion
  gate_decision : String
  gate_confidence : Int
  failing_constraints : List String
deriving DecidableEq, Repr

/-- The per-entry `SubQuestion(...)` construction (gatekeeper.py lines 142-153):
succeeds only when all four keys are present. -/
def parseSubQuestion (sq : SubQuestionRaw) : Option SubQuestion :=
  match sq.constraint_id, sq.question, sq.answer, sq.passed with
  | some c, some q, some a, some p => some ⟨c, q, a, p⟩
  | _, _, _, _ => none

/-- The sub-question list the gate works with (gatekeeper.py lines 141-153). -/
def parsed_sub_questions (result : GateRaw) : List SubQuestion :=
  (result.sub_questions.getD []).filterMap parseSubQuestion

/-- `high_failed` (gatekeeper.py lines 166-170): some sub-question of a
high-priority constraint did not pass. -/
def gate_high_failed (constraints : List Constraint) (sub_questions : List SubQuestion) : Bool :=
  sub_questions.any (fun sq =>
    ((constraints.filter (fun c => c.priority = ConstraintPriority.high)).map (·.id)).contains
        sq.constraint_id
      && !sq.passed)

/-- `pass_rate` (gatekeeper.py lines 162-164), as an exact rational. -/
def gate_pass_rate (sub_questions : List SubQuestion) : ℚ :=
  if sub_questions.length > 0 then
    ((sub_questions.filter (·.passed)).length : ℚ) / (sub_questions.length : ℚ)
  else 0

/-- `Gatekeeper._fallback_result` (gatekeeper.py lines 199-206). -/
def gate_fallback_result (constraints : List Constraint) : GateResult :=
  { sub_questions := []
    gate_decision := "refine"
    gate_confidence := 0
    failing_constraints := constraints.map (·.id) }

/-- `Gatekeeper.gate` (gatekeeper.py lines 87-197). The LLM call outcome is
`resp`; the prompt-side filtering to high+medium constraints (lines 104-109)
only affects the prompt text, not the returned result, and the override uses
the full `constraints` list as the source does (line 166). -/
def gate (constraints : List Constraint) (gate_threshold : Int) (gate_min_pass_rate : ℚ)
    (resp : Except String (Option GateRaw)) : GateResult :=
  match resp with
  | .error _ => gate_fallback_result constraints
  | .ok none => gate_fallback_result constraints
  | .ok (some result) =>
    let sub_questions := parsed_sub_questions result
    let raw_decision := result.gate_decision.getD "refine"
    let raw_confidence := result.gate_confidence.getD 0
    let failing := result.failing_constraints.getD []
    if sub_questions ≠ [] then
      -- Enforce our own gate logic
      let decision :=
        if gate_high_failed constraints sub_questions
            ∨ gate_pass_rate sub_questions < gate_min_pass_rate
            ∨ raw_confidence < gate_threshold then "refine"
        else raw_decision
      -- Rebuild failing constraints from sub-questions
      let failing2 :=
        if failing = [] then (sub_questions.filter (fun sq => !sq.passed)).map (·.constraint_id)
        else failing
      { sub_questions := sub_questions
        gate_decision := decision
        gate_confidence := raw_confidence
        failing_constraints := failing2 }
    else
      { sub_questions := sub_questions
        gate_decision := raw_decision
        gate_confidence := raw_confidence
        failing_constraints := failing }

/-! ## ConvergenceChecker (src/backend/core/convergence.py) -/

inductive ConvergenceDecision where
  | converged
  | continue_
  | max_iterations_reached
deriving DecidableEq, Repr

/-- `ConvergenceDecision(raw_decision)` with `except ValueError` → `CONTINUE`
(convergence.py lines 157-161). -/
def parseConvergenceDecision (s : String) : ConvergenceDecision :=
  if s = "converged" then .converged
  else if s = "continue" then .continue_
  else if s = "max_iterations_reached" then .max_iterations_reached
  else .continue_

/-- One entry of `constraint_checks`. The source reads `c["constraint_id"]`
directly (a missing id would raise, landing in the outer handler modelled by
`.error`) and `c.get("satisfied", False)`. -/
structure ConstraintCheckRaw where
  constraint_id : String
  satisfied : Option Bool
deriving DecidableEq, Repr

/-- The convergence tool payload; `.get`-read fields are `Option`s. -/
structure ConvergenceRaw where
  constraint_checks : Option (List ConstraintCheckRaw)
  decision : Option String
  overall_confidence : Option Int
deriving DecidableEq, Repr

structure ConvergenceResult where
  decision : ConvergenceDecision
  satisfied_count : Nat
  total_count : Nat
  confidence : Int
  unsatisfied_constraints : List String
deriving DecidableEq, Repr

/-- `unsatisfied` (convergence.py lines 148-150). -/
def unsatisfied_ids (checks : List ConstraintCheckRaw) : List String :=
  (checks.filter (fun c => !(c.satisfied.getD false))).map (·.constraint_id)

/-- `high_priority_ids` (convergence.py lines 164-166 and gatekeeper.py 166). -/
def high_priority_ids (constraints : List Constraint) : List String :=
  (constraints.filter (fun c => c.priority = ConstraintPriority.high)).map (·.id)

/-- `high_unsatisfied` (convergence.py line 167). -/
def high_unsatisfied (constraints : List Constraint) (checks : List ConstraintCheckRaw) :
    List String :=
  (unsatisfied_ids checks).filter (fun uid => (high_priority_ids constraints).contains uid)

/-- The fallback `ConvergenceResult` used both for a `None` response
(convergence.py lines 135-143) and for an exception (lines 191-199). -/
def convergence_fallback (constraints : List Constraint) : ConvergenceResult :=
  { decision := .converged
    satisfied_count := 0
    total_count := constraints.length
    confidence := 0
    unsatisfied_constraints := [] }

/-- `ConvergenceChecker.check_convergence` (convergence.py lines 76-199).
`resp` is the outcome of the LLM call; the structural-measurement injection
(lines 104-118) only affects the prompt. -/
def check_convergence (constraints : List Constraint) (iteration max_iterations : Nat)
    (threshold : Int) (resp : Except String (Option ConvergenceRaw)) : ConvergenceResult :=
  -- Force max iterations check
  let force_max := iteration ≥ max_iterations
  match resp with
  | .error _ => convergence_fallback constraints
  | .ok none => convergence_fallback constraints
  | .ok (some result) =>
    let checks := result.constraint_checks.getD []
    let satisfied := checks.filter (fun c => c.satisfied.getD false)
    let unsatisfied := unsatisfied_ids checks
    let overall_confidence := result.overall_confidence.getD 0
    let decision :=
      if force_max then ConvergenceDecision.max_iterations_reached
      else
        let raw := parseConvergenceDecision (result.decision.getD "continue")
        -- Override: check our own thresholds
        if high_unsatisfied constraints checks = [] ∧ overall_confidence ≥ threshold then
          .converged
        else if high_unsatisfied constraints checks ≠ [] then .continue_
        else raw
    { decision := decision
      satisfied_count := satisfied.length
      total_count := checks.length
      confidence := overall_confidence
      unsatisfied_constraints := unsatisfied }

/-! ## Decomposer (src/backend/core/decomposer.py) -/

def parseConstraintType (s : String) : Option ConstraintType :=
  if s = "content" then some .content
  else if s = "reasoning" then some .reasoning
  else if s = "accuracy" then some .accuracy
  else if s = "format" then some .format
  else if s = "tone" then some .tone
  else none

def parseConstraintPriority (s : String) : Option ConstraintPriority :=
  if s = "high" then some .high
  else if s = "medium" then some .medium
  else if s = "low" then some .low
  else none

/-- One entry of the decomposition payload's `constraints` array. The source
reads `id`, `type`, `description`, `priority` directly (KeyError skips the
entry) and `verifiable` with `.get("verifiable", True)`. -/
structure RawConstraint where
  id : Option String
  type : Option String
  description : Option String
  priority : Option String
  verifiable : Option Bool
deriving DecidableEq, Repr

/-- The decomposition tool payload; `.get`-read fields are `Option`s. -/
structure DecomposeRaw where
  main_task : Option String
  constraints : Option (List RawConstraint)
  implicit_constraints : Option (List String)
  difficulty_estimate : Option String
deriving DecidableEq, Repr

structure DecomposeResult where
  main_task : String
  constraints : List Constraint
  implicit_constraints : List String
  difficulty_estimate : String
deriving DecidableEq, Repr

/-- The per-entry `Constraint(...)` construction (decomposer.py lines 120-134):
a missing required key or a non-enumerated type/priority drops the entry. -/
def parseConstraintEntry (c : RawConstraint) : Option Constraint :=
  match c.id, c.type, c.description, c.priority with
  | some i, some t, some d, some p =>
    match parseConstraintType t, parseConstraintPriority p with
    | some ty, some pr => some ⟨i, ty, d, pr, c.verifiable.getD true⟩
    | _, _ => none
  | _, _, _, _ => none

/-- The valid constraints extracted from a payload (decomposer.py lines 120-134). -/
def parsed_constraints (result : DecomposeRaw) : List Constraint :=
  (result.constraints.getD []).filterMap parseConstraintEntry

/-- `Decomposer._fallback_result` (decomposer.py lines 158-180). -/
def fallback_result (input_text : String) : DecomposeResult :=
  { main_task := input_text.take 200
    constraints :=
      [ { id := "C1"
          type := .accuracy
          description := "Respond accurately and completely to the user's input"
          priority := .high
          verifiable := true },
        { id := "C2"
          type := .content
          description := "Address all aspects of the user's query"
          priority := .high
          verifiable := true } ]
    implicit_constraints := ["Response should be factually accurate"]
    difficulty_estimate := "medium" }

/-- `Decomposer.decompose` (decomposer.py lines 78-156). `resp` is the outcome
of the structured LLM call. Building the mode-specific user message
(lines 96-103) is modelled from the spec: `DECOMPOSE_MODE_PROMPTS` is not in
the tree, the spec describes the Decomposer as a single structured call that
never throws, and the message only feeds the call, never the returned value. -/
def decompose (input_text : String) (resp : Except String (Option DecomposeRaw)) :
    DecomposeResult :=
  match resp with
  | .error _ => fallback_result input_text
  | .ok none => fallback_result input_text
  | .ok (some result) =>
    let constraints := parsed_constraints result
    if constraints = [] then fallback_result input_text
    else
      { main_task := result.main_task.getD (input_text.take 200)
        constraints := constraints
        implicit_constraints := result.implicit_constraints.getD []
        difficulty_estimate := result.difficulty_estimate.getD "medium" }

/-! ## String primitives shared by the enforcer and truster

Python string operations are modelled on the character list (`String.data`);
`\s` / `str.strip` use the ASCII whitespace set. -/

/-- Decidable equality for the `Except` values used to model Python
exceptions (not provided by the library for arbitrary payloads). -/
instance {ε α : Type} [DecidableEq ε] [DecidableEq α] : DecidableEq (Except ε α) :=
  fun a b =>
    match a, b with
    | .ok x, .ok y =>
      if h : x = y then .isTrue (by rw [h]) else .isFalse (by simp [h])
    | .error x, .error y =>
      if h : x = y then .isTrue (by rw [h]) else .isFalse (by simp [h])
    | .ok _, .error _ => .isFalse (by simp)
    | .error _, .ok _ => .isFalse (by simp)

/-- Python's `\s` class / `str.strip` whitespace, ASCII part. -/
def pySpace (c : Char) : Bool :=
  c = ' ' ∨ c = '\t' ∨ c = '\n' ∨ c = '\r' ∨ c = '\x0b' ∨ c = '\x0c'

/-- `str.strip()` on a char list. -/
def stripChars (cs : List Char) : List Char :=
  ((cs.dropWhile pySpace).reverse.dropWhile pySpace).reverse

/-- `str.strip()`. -/
def pyStrip (s : String) : String := ⟨stripChars s.data⟩

/-- `'\n'.join` / `'\n\n'.join` etc. on char lists. -/
def joinChars (sep : List Char) : List (List Char) → List Char
  | [] => []
  | [x] => x
  | x :: y :: rest => x ++ sep ++ joinChars sep (y :: rest)

/-- `text.split('\n')` (keeps empty pieces, as Python does). -/
def splitLinesChars : List Char → List Char → List (List Char)
  | [], acc => [acc.reverse]
  | '\n' :: rest, acc => acc.reverse :: splitLinesChars rest []
  | c :: rest, acc => splitLinesChars rest (c :: acc)

def pySplitLines (s : String) : List String :=
  (splitLinesChars s.data []).map (fun l => ⟨l⟩)

/-- The suffix of `ws` after its last `'\n'`. -/
def afterLastNewline (ws : List Char) : List Char :=
  (ws.reverse.takeWhile (fun c => c ≠ '\n')).reverse

/-- `re.split(r'\n\s*\n', ·)`: a match starts at a `'\n'` whose following
whitespace run contains another `'\n'`, and (greedy `\s*` with backtracking)
extends through the last `'\n'` of that run. `fuel ≥ length` makes the
recursion total; each step consumes at least one character. -/
def splitNNChars : Nat → List Char → List Char → List (List Char)
  | _, [], acc => [acc.reverse]
  | 0, rest, acc => [acc.reverse ++ rest]
  | fuel + 1, c :: rest, acc =>
    if c = '\n' then
      let ws := rest.takeWhile pySpace
      if ws.contains '\n' then
        acc.reverse :: splitNNChars fuel (afterLastNewline ws ++ rest.drop ws.length) []
      else splitNNChars fuel rest (c :: acc)
    else splitNNChars fuel rest (c :: acc)

/-- `_split_paragraphs` (structural_enforcer.py lines 110-112):
`[p.strip() for p in re.split(r'\n\s*\n', text.strip()) if p.strip()]`. -/
def split_paragraphs (text : String) : List String :=
  let stripped := stripChars text.data
  (((splitNNChars stripped.length stripped []).map (fun p => stripChars p)).filter
      (fun p => p ≠ [])).map (fun p => (⟨p⟩ : String))

/-- `re.split(r'(?<=[.!?])\s+', ·)`: split at each maximal whitespace run
immediately preceded by `.`, `!` or `?`; keeps empty pieces. `prev` is the
character before the scan position. -/
def splitSentChars : Nat → Option Char → List Char → List Char → List (List Char)
  | _, _, [], acc => [acc.reverse]
  | 0, _, rest, acc => [acc.reverse ++ rest]
  | fuel + 1, prev, c :: rest, acc =>
    if pySpace c ∧ (prev = some '.' ∨ prev = some '!' ∨ prev = some '?') then
      let ws := rest.takeWhile pySpace
      acc.reverse :: splitSentChars fuel none (rest.drop ws.length) []
    else splitSentChars fuel (some c) rest (c :: acc)

/-- Sentence split used by both paragraph and bullet repair
(structural_enforcer.py lines 174 and 367). -/
def split_sentences (s : String) : List String :=
  (splitSentChars s.data.length none s.data []).map (fun l => ⟨l⟩)

/-- Python substring test `needle in hay`. -/
def strContainsSub (hay needle : String) : Bool :=
  hay.data.tails.any (fun t => needle.data.isPrefixOf t)

/-- `str.lower()` (ASCII). -/
def asciiLower (s : String) : String := ⟨s.data.map Char.toLower⟩

/-! ## Structural Enforcer (src/backend/core/structural_enforcer.py) -/

/-- `_is_separator_block` (lines 115-118): the stripped block matches
`^[\*\-=~_]{3,}$`. -/
def is_separator_block (block : String) : Bool :=
  let stripped := stripChars block.data
  decide (stripped.length ≥ 3) && stripped.all (fun c => ['*', '-', '=', '~', '_'].contains c)

/-- First collapse pass (lines 145-151): separator-only blocks are appended to
the previous paragraph with a single newline. -/
def collapseSeparators (paragraphs : List String) : List String :=
  paragraphs.foldl
    (fun collapsed p =>
      if is_separator_block p ∧ collapsed ≠ [] then
        collapsed.dropLast ++ [(collapsed.getLast?.getD "") ++ "\n" ++ p]
      else collapsed ++ [p])
    []

/-- Index of the adjacent pair with the smallest combined length, first minimum
kept (lines 155-161; `min_combined` starts at `float('inf')`, modelled by the
`none` state). -/
def minAdjIdxAux : List String → Nat → Nat → Option Nat → Nat
  | p1 :: p2 :: rest, i, bestIdx, bestVal =>
    let v := p1.length + p2.length
    if (match bestVal with | none => true | some b => decide (v < b)) then
      minAdjIdxAux (p2 :: rest) (i + 1) i (some v)
    else minAdjIdxAux (p2 :: rest) (i + 1) bestIdx bestVal
  | _, _, bestIdx, _ => bestIdx

def minAdjIdx (paragraphs : List String) : Nat := minAdjIdxAux paragraphs 0 0 none

/-- One merge of the shortest adjacent pair (lines 162-163). -/
def mergeStep (paragraphs : List String) : List String :=
  let i := minAdjIdx paragraphs
  paragraphs.take i ++ [(paragraphs.getD i "") ++ " " ++ (paragraphs.getD (i + 1) "")]
    ++ paragraphs.drop (i + 2)

/-- `while len(paragraphs) > expected` merge loop (lines 154-163). Each pass
removes one paragraph, so `fuel = length` reaches the fixed point. The
`length < 2` guard is unreachable for the positive counts the requirement
parser produces (the source would raise IndexError there). -/
def mergeLoop : Nat → Nat → List String → List String
  | 0, _, paragraphs => paragraphs
  | fuel + 1, expected, paragraphs =>
    if paragraphs.length > expected ∧ paragraphs.length ≥ 2 then
      mergeLoop fuel expected (mergeStep paragraphs)
    else paragraphs

/-- Index of the longest paragraph, first maximum kept (lines 168-173;
`max_len` starts at 0). -/
def maxIdxAux : List String → Nat → Nat → Nat → Nat
  | [], _, bestIdx, _ => bestIdx
  | p :: rest, i, bestIdx, bestVal =>
    if p.length > bestVal then maxIdxAux rest (i + 1) i p.length
    else maxIdxAux rest (i + 1) bestIdx bestVal

def maxIdx (paragraphs : List String) : Nat := maxIdxAux paragraphs 0 0 0

/-- `while len(paragraphs) < expected` split loop (lines 167-183): split the
longest paragraph at a sentence boundary, or `break` if it has a single
sentence. The source reads `paragraphs[max_idx]` unguarded (line 174): on an
empty paragraph list with `expected > 0` (empty or whitespace-only text) this
raises IndexError, modelled as `.error`. On a nonempty list `max_idx` is
always in range. Each pass adds one paragraph, so `fuel = expected`
suffices. -/
def splitLoop : Nat → Nat → List String → Except String (List String)
  | 0, _, paragraphs => .ok paragraphs
  | fuel + 1, expected, paragraphs =>
    if paragraphs.length < expected then
      match paragraphs with
      | [] => .error "IndexError: list index out of range"
      | _ =>
        let i := maxIdx paragraphs
        let sentences := split_sentences (paragraphs.getD i "")
        if sentences.length > 1 then
          let mid := sentences.length / 2
          splitLoop fuel expected
            (paragraphs.take i
              ++ [⟨joinChars [' '] ((sentences.take mid).map String.data)⟩,
                  ⟨joinChars [' '] ((sentences.drop mid).map String.data)⟩]
              ++ paragraphs.drop (i + 1))
        else .ok paragraphs
    else .ok paragraphs

/-- The editing body of `_enforce_paragraph_count` (lines 142-185), producing
`"\n\n".join(paragraphs)` after the merge or split passes; propagates the
split loop's IndexError. -/
def paraEdit (text : String) (expected : Nat) : Except String String :=
  let paragraphs := split_paragraphs text
  if paragraphs.length > expected then
    .ok ⟨joinChars ['\n', '\n']
      ((mergeLoop (collapseSeparators paragraphs).length expected
          (collapseSeparators paragraphs)).map String.data)⟩
  else
    match splitLoop expected expected paragraphs with
    | .error e => .error e
    | .ok paragraphs2 => .ok ⟨joinChars ['\n', '\n'] (paragraphs2.map String.data)⟩

/-- `_enforce_paragraph_count` (lines 121-196) with the parsed requirement
`expected` already extracted (`_extract_paragraph_requirement` only ever
returns `n > 0`). Mirrors: return `text` untouched when the count already
matches; otherwise edit, re-count, and revert to `text` when the target was
missed. `.error` is the uncaught IndexError the source raises at an input
with no paragraphs. -/
def enforce_paragraph_count (text : String) (expected : Nat) : Except String String :=
  if (split_paragraphs text).length = expected then .ok text
  else
    match paraEdit text expected with
    | .error e => .error e
    | .ok result =>
      if (split_paragraphs result).length ≠ expected then .ok text else .ok result

/-- `re.match(r'^\s*(?:[-*•]|\d+[.)]) ', line)` (lines 289, 317, 362). -/
def isBulletLine (line : String) : Bool :=
  let rest := line.data.dropWhile pySpace
  match rest with
  | '-' :: ' ' :: _ => true
  | '*' :: ' ' :: _ => true
  | '•' :: ' ' :: _ => true
  | _ =>
    let ds := rest.takeWhile Char.isDigit
    decide (ds ≠ []) &&
      (match rest.drop ds.length with
       | '.' :: ' ' :: _ => true
       | ')' :: ' ' :: _ => true
       | _ => false)

/-- `_find_bullet_lines` (lines 312-319): the indices of bullet lines. -/
def bulletIndicesAux : List String → Nat → List Nat
  | [], _ => []
  | l :: rest, i =>
    if isBulletLine l then i :: bulletIndicesAux rest (i + 1)
    else bulletIndicesAux rest (i + 1)

def find_bullet_lines (text : String) : List Nat :=
  bulletIndicesAux (pySplitLines text) 0

/-- Number of bullet lines of a text. -/
def bulletCount (text : String) : Nat := (find_bullet_lines text).length

/-- Length of the bullet marker matched by `^(\s*(?:[-*•]|\d+[.)]) )`
(lines 362-366), including the trailing space; only called on bullet lines. -/
def bulletMarkerLen (line : String) : Nat :=
  let wsLen := (line.data.takeWhile pySpace).length
  let rest := line.data.dropWhile pySpace
  match rest with
  | '-' :: ' ' :: _ => wsLen + 2
  | '*' :: ' ' :: _ => wsLen + 2
  | '•' :: ' ' :: _ => wsLen + 2
  | _ => wsLen + (rest.takeWhile Char.isDigit).length + 2

/-- Excess-bullet removal loop (lines 341-344): pop the last bullet index and
delete that line; earlier indices stay valid. -/
def removeBulletLoop : Nat → Nat → List Nat → List String → List Nat × List String
  | 0, _, bulletIndices, lines => (bulletIndices, lines)
  | fuel + 1, expected, bulletIndices, lines =>
    if bulletIndices.length > expected then
      let idx := bulletIndices.getLast?.getD 0
      removeBulletLoop fuel expected bulletIndices.dropLast
        (lines.take idx ++ lines.drop (idx + 1))
    else (bulletIndices, lines)

/-- Longest bullet line's line index, first maximum kept (lines 352-359;
Python tracks the position inside `bullet_indices`, which comes to the same
line index). -/
def maxBulletAux (lines : List String) : List Nat → Nat → Nat → Nat
  | [], best, _ => best
  | li :: rest, best, bestLen =>
    if (lines.getD li "").length > bestLen then maxBulletAux lines rest li (lines.getD li "").length
    else maxBulletAux lines rest best bestLen

def maxBulletIdx (lines : List String) (bulletIndices : List Nat) : Nat :=
  maxBulletAux lines bulletIndices (bulletIndices.headD 0) 0

/-- Bullet split loop (lines 346-376): split the longest bullet item at a
sentence boundary, keeping the marker on both halves; `break` when the longest
item has a single sentence (the edited lines are returned WITHOUT re-checking
the count). Each pass adds one bullet, so `fuel = expected` suffices. -/
def bulletSplitLoop : Nat → Nat → List String → List Nat → List String
  | 0, _, lines, _ => lines
  | fuel + 1, expected, lines, bulletIndices =>
    if bulletIndices.length < expected then
      match bulletIndices with
      | [] => lines
      | _ =>
        let li := maxBulletIdx lines bulletIndices
        let line := lines.getD li ""
        if isBulletLine line then
          let ml := bulletMarkerLen line
          let marker : List Char := line.data.take ml
          let content : String := ⟨line.data.drop ml⟩
          let sentences := split_sentences content
          if sentences.length > 1 then
            let mid := sentences.length / 2
            let l1 : String := ⟨marker ++ joinChars [' '] ((sentences.take mid).map String.data)⟩
            let l2 : String := ⟨marker ++ joinChars [' '] ((sentences.drop mid).map String.data)⟩
            let lines2 := lines.take li ++ [l1, l2] ++ lines.drop (li + 1)
            bulletSplitLoop fuel expected lines2 (bulletIndicesAux lines2 0)
          else lines
        else lines
    else lines

/-- `_enforce_bullet_count` (lines 322-378) with the parsed requirement
`expected` already extracted (always positive). Note: unlike the paragraph
repair, the result of the removal/split passes is joined and returned with no
post-enforcement re-count. -/
def enforce_bullet_count (text : String) (expected : Nat) : String :=
  let lines := pySplitLines text
  let bulletIndices := bulletIndicesAux lines 0
  if bulletIndices.length = expected then text
  else if bulletIndices.length > expected then
    ⟨joinChars ['\n']
      ((removeBulletLoop bulletIndices.length expected bulletIndices lines).2.map String.data)⟩
  else
    ⟨joinChars ['\n'] ((bulletSplitLoop expected expected lines bulletIndices).map String.data)⟩

/-- Python `str.split()` with no argument: whitespace-separated words, no
empty pieces. -/
def pyWordsAux : List Char → List Char → List (List Char)
  | [], [] => []
  | [], acc => [acc.reverse]
  | c :: rest, acc =>
    if pySpace c then
      if acc = [] then pyWordsAux rest []
      else acc.reverse :: pyWordsAux rest []
    else pyWordsAux rest (c :: acc)

def pyWords (s : String) : List String := (pyWordsAux s.data []).map (fun l => ⟨l⟩)

/-- One pass of `_enforce_first_word`'s requirement loop
(structural_enforcer.py lines 256-278): skip out-of-range paragraph numbers
and empty paragraphs, skip when the first word already matches (stripped,
lowered), otherwise prepend the required word and set the changed flag. -/
def firstWordStep (state : List String × Bool) (req : Nat × String) : List String × Bool :=
  if req.1 < 1 ∨ req.1 > state.1.length then state
  else
    match pyWords (state.1.getD (req.1 - 1) "") with
    | [] => state
    | first_word :: _ =>
      -- Match the verifier exactly: compare first word stripped + lowered
      if asciiLower (pyStrip first_word) = asciiLower req.2 then state
      else
        (state.1.take (req.1 - 1) ++ [req.2 ++ " " ++ state.1.getD (req.1 - 1) ""]
          ++ state.1.drop req.1, true)

/-- `_enforce_first_word` (structural_enforcer.py lines 245-282) with the
parsed requirements (the output of `_extract_first_word_requirements`, whose
`\w+` captures are nonempty and whitespace-free) passed in. Requirements are
applied in order against the mutating paragraph list — no re-verification
after the loop; returns the rejoined paragraphs when anything changed, the
untouched text otherwise. -/
def enforce_first_word (text : String) (requirements : List (Nat × String)) : String :=
  if requirements = [] then text
  else
    match requirements.foldl firstWordStep (split_paragraphs text, false) with
    | (paragraphs, true) => ⟨joinChars ['\n', '\n'] (paragraphs.map String.data)⟩
    | (_, false) => text

/-- The basis of the first-word repair's own check: first word of the Nth
paragraph (1-based). -/
def nth_paragraph_first_word (text : String) (para_num : Nat) : String :=
  (pyWords ((split_paragraphs text).getD (para_num - 1) "")).headD ""

/-- Python `\w` (ASCII part), for the `\b` word boundaries below. -/
def isWordChar (c : Char) : Bool := c.isAlphanum || c = '_'

/-- `re.search(r'\bW\b', s)`: the word occurs somewhere with non-word (or
edge) characters on both sides. `prev` is the character before the scan
position. -/
def containsWordAux (w : List Char) : Option Char → List Char → Bool
  | prev, [] =>
    w.isPrefixOf ([] : List Char) &&
      (match prev with | some p => !isWordChar p | none => true)
  | prev, c :: rest =>
    (w.isPrefixOf (c :: rest) &&
      (match prev with | some p => !isWordChar p | none => true) &&
      (match (c :: rest).drop w.length with | d :: _ => !isWordChar d | [] => true)) ||
    containsWordAux w (some c) rest

def pyContainsWord (s w : String) : Bool := containsWordAux w.data none s.data

/-- `_enforce_constrained_response` (structural_enforcer.py lines 411-441):
when the requirement text presents "My answer is yes/no/maybe" as options and
the response does not already start with one, prepend the detected (or
default "maybe") constrained answer. The case-insensitive regex searches are
substring / word searches on the lowered texts. -/
def enforce_constrained_response (text requirement_text : String) : String :=
  if !(strContainsSub (asciiLower requirement_text) "my answer is yes"
      || strContainsSub (asciiLower requirement_text) "my answer is no"
      || strContainsSub (asciiLower requirement_text) "my answer is maybe") then text
  else
    if ("my answer is yes").data.isPrefixOf (asciiLower (pyStrip text)).data
        || ("my answer is no").data.isPrefixOf (asciiLower (pyStrip text)).data
        || ("my answer is maybe").data.isPrefixOf (asciiLower (pyStrip text)).data then text
    else
      if pyContainsWord (asciiLower text) "yes" && !pyContainsWord (asciiLower text) "no" then
        "My answer is " ++ "yes" ++ ".\n\n" ++ text
      else if pyContainsWord (asciiLower text) "no" && !pyContainsWord (asciiLower text) "yes" then
        "My answer is " ++ "no" ++ ".\n\n" ++ text
      else
        "My answer is " ++ "maybe" ++ ".\n\n" ++ text

/-- `_enforce_start_phrase` (structural_enforcer.py lines 444-461): first the
constrained-response pass; if it changed the text, return that; otherwise
prepend the explicitly required phrase (`required` is the parsed output of
`_extract_start_phrase_requirement`) unless the stripped, lowered text
already starts with it. -/
def enforce_start_phrase (text requirement_text : String) (required : Option String) : String :=
  if enforce_constrained_response text requirement_text ≠ text then
    enforce_constrained_response text requirement_text
  else
    match required with
    | none => text
    | some req =>
      if (asciiLower req).data.isPrefixOf (asciiLower (pyStrip text)).data then text
      else req ++ "\n\n" ++ text

/-! ## Truster (src/backend/core/truster.py) -/

/-- The fields of the `structural_analysis.analyze` measurement dict that the
Truster's safety net reads (truster.py lines 94-158). The analyses are computed
by `analyze` on the two texts before the LLM call and passed in here as values
(the analyzer itself is a separate pure measurement pass). -/
structure Analysis where
  starts_with_quote : Bool
  ends_with_quote : Bool
  placeholder_count : Nat
  all_uppercase : Bool
  all_lowercase : Bool
  all_caps_word_count : Nat
  has_postscript : Bool
  has_six_star_separator : Bool
  has_comma : Bool
  bullet_count : Nat
deriving DecidableEq, Repr

/-- The lowercased keyword haystack built from all constraint descriptions
(truster.py line 105). -/
def all_constraints_text (constraints : List Constraint) : String :=
  ⟨joinChars [' '] (constraints.map (fun c => (asciiLower c.description).data))⟩

/-- `any(kw in all_constraints for kw in kws)`. -/
def mentionsAny (constraints : List Constraint) (kws : List String) : Bool :=
  kws.any (fun kw => strContainsSub (all_constraints_text constraints) kw)

/-- `_check_structural_override` (truster.py lines 94-158). Checks run in
source order; the first firing check's reason is returned. The source's
`refined_caps < draft_caps * 0.5` float comparison is the exact
`2 * refined_caps < draft_caps` for these integer counts. -/
def check_structural_override (draft_analysis refined_analysis : Analysis)
    (constraints : List Constraint) : Option String :=
  if draft_analysis.starts_with_quote ∧ draft_analysis.ends_with_quote
      ∧ ¬(refined_analysis.starts_with_quote ∧ refined_analysis.ends_with_quote)
      ∧ mentionsAny constraints ["quotation", "quote", "wrap"] then
    some "quotation wrapping lost"
  else if draft_analysis.placeholder_count > refined_analysis.placeholder_count
      ∧ mentionsAny constraints ["placeholder", "bracket", "[", "square"] then
    some "placeholders decreased"
  else if draft_analysis.all_uppercase ∧ ¬refined_analysis.all_uppercase
      ∧ mentionsAny constraints ["capital", "uppercase", "upper case"] then
    some "uppercase lost"
  else if draft_analysis.all_lowercase ∧ ¬refined_analysis.all_lowercase
      ∧ mentionsAny constraints ["lowercase", "lower case", "lower"] then
    some "lowercase lost"
  else if draft_analysis.all_caps_word_count > 0
      ∧ 2 * refined_analysis.all_caps_word_count < draft_analysis.all_caps_word_count
      ∧ mentionsAny constraints ["capital", "caps", "uppercase"] then
    some "capitalized words decreased"
  else if draft_analysis.has_postscript ∧ ¬refined_analysis.has_postscript
      ∧ mentionsAny constraints ["postscript", "p.s."] then
    some "postscript lost"
  else if draft_analysis.has_six_star_separator ∧ ¬refined_analysis.has_six_star_separator
      ∧ mentionsAny constraints ["******", "separator", "two responses"] then
    some "separator lost"
  else if draft_analysis.has_comma ≠ refined_analysis.has_comma
      ∧ mentionsAny constraints ["comma"]
      ∧ ¬draft_analysis.has_comma ∧ refined_analysis.has_comma then
    some "commas introduced"
  else if draft_analysis.bullet_count > 0
      ∧ refined_analysis.bullet_count < draft_analysis.bullet_count
      ∧ mentionsAny constraints ["bullet", "list item", "list point"] then
    some "bullet count decreased"
  else none

/-- The trust tool payload; `.get`-read fields are `Option`s
(`blend_notes` is read with a bare `.get`, i.e. `None` default). -/
structure TrustRaw where
  winner : Option String
  reasoning : Option String
  draft_score : Option Int
  refined_score : Option Int
  final_output : Option String
  blended : Option Bool
  blend_notes : Option String
deriving DecidableEq, Repr

structure TrustResult where
  winner : String
  reasoning : String
  draft_score : Int
  refined_score : Int
  final_output : String
  blended : Bool
  blend_notes : Option String
deriving DecidableEq, Repr

/-- The winner/blended/final-output selection of `trust_and_rank`
(truster.py lines 233-252): blend fallback when blending is disabled, the
model's combined output when blended, otherwise the EXACT original text of
the chosen side. -/
def trust_step (original_draft refined_output : String) (blend_enabled : Bool)
    (result : TrustRaw) : String × Bool × String :=
  if result.blended.getD false ∧ ¬blend_enabled then
    -- Blending disabled but model chose blend: higher score wins
    let winner1 := if result.refined_score.getD 60 ≥ result.draft_score.getD 50 then "refined"
      else "draft"
    (winner1, false, if winner1 = "refined" then refined_output else original_draft)
  else if result.blended.getD false then
    -- Blended: must use LLM's combined output
    (result.winner.getD "refined", true, result.final_output.getD refined_output)
  else
    -- Non-blended: use EXACT original text
    (result.winner.getD "refined", false,
      if result.winner.getD "refined" = "draft" then original_draft else refined_output)

/-- The structural safety net application (truster.py lines 254-266): a
non-draft, non-blended choice with a firing structural override flips to the
draft and its verbatim text. -/
def trust_final (draft_analysis refined_analysis : Analysis) (constraints : List Constraint)
    (original_draft : String) (step : String × Bool × String) : String × String :=
  if step.1 ≠ "draft" ∧ step.2.1 = false then
    match check_structural_override draft_analysis refined_analysis constraints with
    | some _ => ("draft", original_draft)
    | none => (step.1, step.2.2)
  else (step.1, step.2.2)

/-- `Truster.trust_and_rank` (truster.py lines 168-296). `resp` is the outcome
of the comparison LLM call; `draft_analysis` / `refined_analysis` are the
`analyze` measurements of the two texts (computed before the call, lines
199-200). On the identical-texts fast path the call and the analyses are never
used. A `KeyError` on a truncated analysis dict (empty text) lands in the
outer handler, i.e. the `.error` case. -/
def trust_and_rank (original_draft refined_output : String) (constraints : List Constraint)
    (blend_enabled : Bool) (draft_analysis refined_analysis : Analysis)
    (resp : Except String (Option TrustRaw)) : TrustResult :=
  -- If draft and refined are identical, skip comparison
  if pyStrip original_draft = pyStrip refined_output then
    { winner := "refined"
      reasoning := "Draft and refined versions are identical"
      draft_score := 75
      refined_score := 75
      final_output := refined_output
      blended := false
      blend_notes := none }
  else
    match resp with
    | .error e =>
      { winner := "refined"
        reasoning := "Trust comparison failed (" ++ e ++ "), defaulting to refined"
        draft_score := 50
        refined_score := 60
        final_output := refined_output
        blended := false
        blend_notes := none }
    | .ok none =>
      { winner := "refined"
        reasoning := "Trust comparison failed, defaulting to refined version"
        draft_score := 50
        refined_score := 60
        final_output := refined_output
        blended := false
        blend_notes := none }
    | .ok (some result) =>
      { winner := (trust_final draft_analysis refined_analysis constraints original_draft
          (trust_step original_draft refined_output blend_enabled result)).1
        reasoning := result.reasoning.getD ""
        draft_score := result.draft_score.getD 50
        refined_score := result.refined_score.getD 60
        final_output := (trust_final draft_analysis refined_analysis constraints original_draft
          (trust_step original_draft refined_output blend_enabled result)).2
        blended := (trust_step original_draft refined_output blend_enabled result).2.1
        blend_notes := result.blend_notes }

/-! ## Concrete inputs used by witnesses and counterexamples -/

def w9Claim1 : ClaimToVerify :=
  ⟨"V1", "Water boils at 100C at sea level", "C1", "boils at 100C"⟩

def w9Claim2 : ClaimToVerify :=
  ⟨"V2", "The sky is green", "C1", "sky is green"⟩

def w9Result : VerificationResultV2 :=
  ⟨"V2", "The sky is green", .refuted, none, "refuted by sources", some .refuted, some "d",
    .refuted, 90, true⟩

def w9Verify : ClaimToVerify → Except String VerificationResultV2 :=
  fun claim_obj => if claim_obj.id = "V1" then .error "timeout" else .ok w9Result

def w10Constraint : Constraint := ⟨"C1", .accuracy, "Answer must be accurate", .high, true⟩

def w10Raw : GateRaw := ⟨some [], some "skip", some 40, some []⟩

def c2Constraint : Constraint := ⟨"C1", .accuracy, "Answer must be accurate", .high, true⟩

def c2Raw : GateRaw :=
  ⟨some [⟨some "C1", some "Is the answer accurate?", some "Yes", some true⟩],
    some "refine", some 90, some []⟩

def w2Raw : GateRaw :=
  ⟨some [⟨some "C1", some "Is the answer accurate?", some "No", some false⟩],
    some "skip", some 90, some []⟩

def w3Raw : ConvergenceRaw := ⟨some [⟨"C1", some false⟩], some "continue", some 40⟩

def c4Constraint : Constraint := ⟨"C1", .accuracy, "Answer must be accurate", .high, true⟩

def c4Raw : ConvergenceRaw := ⟨some [⟨"C1", some true⟩], some "converged", some 50⟩

def w4RawUnsat : ConvergenceRaw := ⟨some [⟨"C1", some false⟩], some "converged", some 95⟩

def w5DraftAnalysis : Analysis := ⟨true, true, 0, false, false, 0, false, false, false, 0⟩

def w5RefinedAnalysis : Analysis := ⟨false, false, 0, false, false, 0, false, false, false, 0⟩

def w5Constraint : Constraint :=
  ⟨"C1", .format, "Wrap your entire response in double quotation marks", .high, true⟩

def w5Raw : TrustRaw :=
  ⟨some "refined", some "better prose", some 70, some 80, some "Hello there.", some false, none⟩

/-! ## Theorems -/

/-- Claim C1: the Verifier's verdict combination function returns exactly the
spec's table for all nine (web, self) pairs, and for the self-disabled case
returns the web verdict at confidence 65 (verified/refuted) or 30 (unclear). -/
theorem combine_verdicts_table :
    combine_verdicts .verified (some .verified) = (.verified, 90) ∧
    combine_verdicts .refuted (some .refuted) = (.refuted, 90) ∧
    combine_verdicts .verified (some .unclear) = (.verified, 60) ∧
    combine_verdicts .refuted (some .unclear) = (.refuted, 60) ∧
    combine_verdicts .unclear (some .verified) = (.verified, 45) ∧
    combine_verdicts .unclear (some .refuted) = (.refuted, 45) ∧
    combine_verdicts .verified (some .refuted) = (.unclear, 25) ∧
    combine_verdicts .refuted (some .verified) = (.unclear, 25) ∧
    combine_verdicts .unclear (some .unclear) = (.unclear, 40) ∧
    combine_verdicts .verified none = (.verified, 65) ∧
    combine_verdicts .refuted none = (.refuted, 65) ∧
    combine_verdicts .unclear none = (.unclear, 30) := by
  decide

/-- `dual_verify` is the element-wise image of the per-claim verification with
the exception handler folded in. -/
theorem dual_verify_eq_map (verify_single : ClaimToVerify → Except String VerificationResultV2)
    (claims : List ClaimToVerify) :
    dual_verify verify_single claims =
      claims.map (fun claim_obj =>
        match verify_single claim_obj with
        | .ok result => result
        | .error e => dualVerifyFallback claim_obj e) := by
  cases claims <;> rfl

/-- Claim C9: an exception while verifying one claim never aborts the batch —
the returned list has exactly one result per input claim in input order, a
claim whose verification succeeds keeps its result, and a claim whose
verification raises yields the degraded result, which has combined verdict
unclear, combined confidence 0 and `web_verified = false`. -/
theorem dual_verify_isolates_failures
    (verify_single : ClaimToVerify → Except String VerificationResultV2)
    (claims : List ClaimToVerify) :
    (dual_verify verify_single claims).length = claims.length ∧
    (∀ (i : Nat) claim_obj, claims[i]? = some claim_obj →
      (dual_verify verify_single claims)[i]? =
        some (match verify_single claim_obj with
              | .ok result => result
              | .error e => dualVerifyFallback claim_obj e)) ∧
    (∀ claim_obj e,
      (dualVerifyFallback claim_obj e).combined_verdict = .unclear ∧
      (dualVerifyFallback claim_obj e).combined_confidence = 0 ∧
      (dualVerifyFallback claim_obj e).web_verified = false ∧
      (dualVerifyFallback claim_obj e).claim_id = claim_obj.id) := by
  refine ⟨?_, ?_, ?_⟩
  · rw [dual_verify_eq_map, List.length_map]
  · intro i claim_obj h
    rw [dual_verify_eq_map, List.getElem?_map, h]
    rfl
  · intro claim_obj e
    exact ⟨rfl, rfl, rfl, rfl⟩

/-- Witness for C9 at a concrete two-claim batch whose first claim raises. -/
theorem dual_verify_isolates_failures_witness :
    (dual_verify w9Verify [w9Claim1, w9Claim2]).length = 2 ∧
    (dual_verify w9Verify [w9Claim1, w9Claim2])[0]? = some (dualVerifyFallback w9Claim1 "timeout") ∧
    (dual_verify w9Verify [w9Claim1, w9Claim2])[1]? = some w9Result ∧
    (dualVerifyFallback w9Claim1 "timeout").combined_verdict = .unclear := by
  have h := dual_verify_isolates_failures w9Verify [w9Claim1, w9Claim2]
  exact ⟨h.1, h.2.1 0 w9Claim1 rfl, h.2.1 1 w9Claim2 rfl, (h.2.2 w9Claim1 "timeout").1⟩

/-- Characterization of `gate` on a successful tool call. -/
theorem gate_ok_some (constraints : List Constraint) (gate_threshold : Int)
    (gate_min_pass_rate : ℚ) (result : GateRaw) :
    gate constraints gate_threshold gate_min_pass_rate (.ok (some result)) =
      if parsed_sub_questions result ≠ [] then
        { sub_questions := parsed_sub_questions result
          gate_decision :=
            if gate_high_failed constraints (parsed_sub_questions result)
                ∨ gate_pass_rate (parsed_sub_questions result) < gate_min_pass_rate
                ∨ result.gate_confidence.getD 0 < gate_threshold then "refine"
            else result.gate_decision.getD "refine"
          gate_confidence := result.gate_confidence.getD 0
          failing_constraints :=
            if result.failing_constraints.getD [] = [] then
              ((parsed_sub_questions result).filter (fun sq => !sq.passed)).map (·.constraint_id)
            else result.failing_constraints.getD [] }
      else
        { sub_questions := parsed_sub_questions result
          gate_decision := result.gate_decision.getD "refine"
          gate_confidence := result.gate_confidence.getD 0
          failing_constraints := result.failing_constraints.getD [] } := rfl

/-- Claim C10: on a successful gate call whose parsed sub-question list is
empty, no override is applied — the model's decision and confidence come back
unchanged and the failing-constraints list is not rebuilt. -/
theorem gate_no_override_on_empty_subquestions (constraints : List Constraint)
    (gate_threshold : Int) (gate_min_pass_rate : ℚ) (result : GateRaw)
    (h : parsed_sub_questions result = []) :
    gate constraints gate_threshold gate_min_pass_rate (.ok (some result)) =
      { sub_questions := []
        gate_decision := result.gate_decision.getD "refine"
        gate_confidence := result.gate_confidence.getD 0
        failing_constraints := result.failing_constraints.getD [] } := by
  rw [gate_ok_some, if_neg (by simp [h]), h]

/-- Witness for C10: an empty sub-question list with a model answer of skip at
confidence 40 under threshold 85 is kept as skip with confidence 40. -/
theorem gate_no_override_on_empty_subquestions_witness :
    gate [w10Constraint] 85 1 (.ok (some w10Raw)) = ⟨[], "skip", 40, []⟩ ∧
    (40 : Int) < 85 := by
  exact ⟨gate_no_override_on_empty_subquestions [w10Constraint] 85 1 w10Raw rfl, by decide⟩

/-- Counterexample to Claim C2's "and skip otherwise": with one passed
high-priority sub-question, confidence 90 ≥ threshold 85, pass rate 1 ≥
min-pass-rate 1, and the model answering refine, the gate returns refine, not
skip — the override never flips a model refine to skip. -/
theorem gate_counterexample :
    gate_high_failed [c2Constraint] (parsed_sub_questions c2Raw) = false ∧
    ¬(gate_pass_rate (parsed_sub_questions c2Raw) < 1) ∧
    ¬((90 : Int) < 85) ∧
    (gate [c2Constraint] 85 1 (.ok (some c2Raw))).gate_decision = "refine" ∧
    (gate [c2Constraint] 85 1 (.ok (some c2Raw))).gate_decision ≠ "skip" := by
  have hdec : (gate [c2Constraint] 85 1 (.ok (some c2Raw))).gate_decision = "refine" := by
    rw [gate_ok_some, if_pos (show parsed_sub_questions c2Raw ≠ [] by decide)]
    simp [c2Raw]
  have hpr : ¬(gate_pass_rate (parsed_sub_questions c2Raw) < 1) := by
    have h1 : gate_pass_rate (parsed_sub_questions c2Raw) = (1 : ℚ) / 1 := rfl
    rw [h1]
    norm_num
  exact ⟨by decide, hpr, by decide, hdec, by rw [hdec]; decide⟩

/-- Claim C2 (amended): on a successful gate call with a NONEMPTY parsed
sub-question list, the final decision is refine whenever a high-priority
sub-question failed, or the pass rate is below the minimum, or the model's
confidence is below the threshold; OTHERWISE THE MODEL'S OWN DECISION IS
RETURNED UNCHANGED (which may itself be refine — the override never forces
skip); and when the model's failing-constraints list is empty it is rebuilt as
the ids of the failed sub-questions. -/
theorem gate_override_forces_refine (constraints : List Constraint) (gate_threshold : Int)
    (gate_min_pass_rate : ℚ) (result : GateRaw)
    (h : parsed_sub_questions result ≠ []) :
    ((gate_high_failed constraints (parsed_sub_questions result) = true
        ∨ gate_pass_rate (parsed_sub_questions result) < gate_min_pass_rate
        ∨ result.gate_confidence.getD 0 < gate_threshold) →
      (gate constraints gate_threshold gate_min_pass_rate (.ok (some result))).gate_decision
        = "refine") ∧
    (¬(gate_high_failed constraints (parsed_sub_questions result) = true
        ∨ gate_pass_rate (parsed_sub_questions result) < gate_min_pass_rate
        ∨ result.gate_confidence.getD 0 < gate_threshold) →
      (gate constraints gate_threshold gate_min_pass_rate (.ok (some result))).gate_decision
        = result.gate_decision.getD "refine") ∧
    (result.failing_constraints.getD [] = [] →
      (gate constraints gate_threshold gate_min_pass_rate
          (.ok (some result))).failing_constraints =
        ((parsed_sub_questions result).filter (fun sq => !sq.passed)).map (·.constraint_id)) := by
  rw [gate_ok_some, if_pos h]
  refine ⟨fun hc => ?_, fun hc => ?_, fun hf => ?_⟩
  · simp only []
    rw [if_pos hc]
  · simp only []
    rw [if_neg hc]
  · simp only []
    rw [if_pos hf]

/-- Witness for amended C2: one high-priority constraint whose sub-question
failed, model answer skip at confidence 90 — the gate still decides refine and
rebuilds the failing list as ["C1"]. -/
theorem gate_override_forces_refine_witness :
    (gate [c2Constraint] 85 1 (.ok (some w2Raw))).gate_decision = "refine" ∧
    (gate [c2Constraint] 85 1 (.ok (some w2Raw))).failing_constraints = ["C1"] := by
  have h := gate_override_forces_refine [c2Constraint] 85 1 w2Raw (by decide)
  exact ⟨h.1 (Or.inl (by decide)), h.2.2 rfl⟩

/-- Characterization of `check_convergence` on a successful tool call. -/
theorem check_convergence_ok_some (constraints : List Constraint)
    (iteration max_iterations : Nat) (threshold : Int) (result : ConvergenceRaw) :
    check_convergence constraints iteration max_iterations threshold (.ok (some result)) =
      { decision :=
          if iteration ≥ max_iterations then ConvergenceDecision.max_iterations_reached
          else if high_unsatisfied constraints (result.constraint_checks.getD []) = []
              ∧ result.overall_confidence.getD 0 ≥ threshold then .converged
          else if high_unsatisfied constraints (result.constraint_checks.getD []) ≠ [] then
            .continue_
          else parseConvergenceDecision (result.decision.getD "continue")
        satisfied_count :=
          ((result.constraint_checks.getD []).filter (fun c => c.satisfied.getD false)).length
        total_count := (result.constraint_checks.getD []).length
        confidence := result.overall_confidence.getD 0
        unsatisfied_constraints := unsatisfied_ids (result.constraint_checks.getD []) } := rfl

/-- Counterexample to Claim C3's "including a null or failed model response":
at iteration 2 of max 2 (so `iteration >= max_iterations`) a `None` model
response yields decision converged, not max_iterations_reached — the null /
exception fallback takes precedence over the max-iterations override. -/
theorem check_convergence_none_counterexample :
    (2 : Nat) ≥ 2 ∧
    (check_convergence [] 2 2 80 (.ok none)).decision = .converged ∧
    (check_convergence [] 2 2 80 (.ok none)).decision ≠ .max_iterations_reached := by
  decide

/-- Claim C3 (amended): whenever the convergence model call SUCCEEDS with a
parsed payload and `iteration >= max_iterations`, the returned decision is
max_iterations_reached regardless of the model's own decision; a null or
failed model response instead returns the converged fallback (which also
exits the loop). -/
theorem check_convergence_max_iterations_forced (constraints : List Constraint)
    (iteration max_iterations : Nat) (threshold : Int) (result : ConvergenceRaw)
    (h : iteration ≥ max_iterations) :
    (check_convergence constraints iteration max_iterations threshold
        (.ok (some result))).decision = .max_iterations_reached ∧
    (check_convergence constraints iteration max_iterations threshold
        (.ok none)).decision = .converged ∧
    (check_convergence constraints iteration max_iterations threshold
        (.error "timeout")).decision = .converged := by
  refine ⟨?_, rfl, rfl⟩
  rw [check_convergence_ok_some]
  simp [h]

/-- Witness for amended C3: at iteration 3 of max 3, a model answer of
continue at confidence 40 is overridden to max_iterations_reached. -/
theorem check_convergence_max_iterations_forced_witness :
    (check_convergence [] 3 3 80 (.ok (some w3Raw))).decision = .max_iterations_reached :=
  (check_convergence_max_iterations_forced [] 3 3 80 w3Raw (by decide)).1

/-- Counterexample to Claim C4's "only if" direction: at iteration 0 of max 3
with threshold 80, no unsatisfied constraint and a model decision of converged
at confidence 50, the returned decision is converged although the overall
confidence 50 is below the threshold 80 — when no high-priority constraint is
unsatisfied but confidence is below threshold, the model's own decision is
kept rather than forced to continue. -/
theorem check_convergence_counterexample :
    (check_convergence [c4Constraint] 0 3 80 (.ok (some c4Raw))).decision = .converged ∧
    (check_convergence [c4Constraint] 0 3 80 (.ok (some c4Raw))).confidence < 80 := by
  decide

/-- Claim C4 (amended): on a successful convergence call with
`iteration < max_iterations`, the decision is FORCED to converged when no
high-priority constraint is reported unsatisfied and the overall confidence
is at or above the threshold; any unsatisfied high-priority constraint forces
continue regardless of the model's decision; in the remaining case (no
high-priority constraint unsatisfied but confidence below threshold) the
model's own parsed decision is returned, so converged can also be returned
below the threshold. -/
theorem check_convergence_override (constraints : List Constraint)
    (iteration max_iterations : Nat) (threshold : Int) (result : ConvergenceRaw)
    (h : iteration < max_iterations) :
    ((high_unsatisfied constraints (result.constraint_checks.getD []) = []
        ∧ result.overall_confidence.getD 0 ≥ threshold) →
      (check_convergence constraints iteration max_iterations threshold
          (.ok (some result))).decision = .converged) ∧
    (high_unsatisfied constraints (result.constraint_checks.getD []) ≠ [] →
      (check_convergence constraints iteration max_iterations threshold
          (.ok (some result))).decision = .continue_) ∧
    ((high_unsatisfied constraints (result.constraint_checks.getD []) = []
        ∧ ¬(result.overall_confidence.getD 0 ≥ threshold)) →
      (check_convergence constraints iteration max_iterations threshold
          (.ok (some result))).decision =
        parseConvergenceDecision (result.decision.getD "continue")) := by
  rw [check_convergence_ok_some]
  have hmax : ¬(iteration ≥ max_iterations) := Nat.not_le.mpr h
  refine ⟨fun hc => ?_, fun hc => ?_, fun hc => ?_⟩
  · simp only [if_neg hmax, if_pos hc]
  · rw [if_neg hmax]
    by_cases hconf : high_unsatisfied constraints (result.constraint_checks.getD []) = []
        ∧ result.overall_confidence.getD 0 ≥ threshold
    · exact absurd hconf.1 hc
    · simp only [if_neg hmax, if_neg hconf, if_pos hc]
  · have hnc : ¬(high_unsatisfied constraints (result.constraint_checks.getD []) = []
        ∧ result.overall_confidence.getD 0 ≥ threshold) := fun hcc => hc.2 hcc.2
    simp only [if_neg hmax, if_neg hnc, if_neg (not_not.mpr hc.1)]

/-- Witness for amended C4: an unsatisfied high-priority constraint forces
continue even though the model said converged at confidence 95 ≥ 80. -/
theorem check_convergence_override_witness :
    (check_convergence [c4Constraint] 1 3 80 (.ok (some w4RawUnsat))).decision = .continue_ :=
  (check_convergence_override [c4Constraint] 1 3 80 w4RawUnsat (by decide)).2.1 (by decide)

/-- Claim C8: `decompose` is total (the Lean function is total, mirroring that
every failure of the call or of entry validation is caught), and whenever the
model response is empty (`none`), the call raises, or every returned
constraint entry is invalid, it returns the fixed two-constraint fallback, so
in all those cases the result contains a high-priority verifiable constraint. -/
theorem decompose_fallback_guarantee (input_text : String)
    (resp : Except String (Option DecomposeRaw))
    (h : (∃ e, resp = .error e) ∨ resp = .ok none ∨
      (∃ raw, resp = .ok (some raw) ∧ parsed_constraints raw = [])) :
    decompose input_text resp = fallback_result input_text ∧
    ∃ c ∈ (decompose input_text resp).constraints,
      c.priority = ConstraintPriority.high ∧ c.verifiable = true := by
  have heq : decompose input_text resp = fallback_result input_text := by
    rcases h with ⟨e, rfl⟩ | rfl | ⟨raw, rfl, hp⟩
    · rfl
    · rfl
    · simp [decompose, hp]
  refine ⟨heq, ?_⟩
  rw [heq]
  exact ⟨⟨"C1", .accuracy, "Respond accurately and completely to the user's input", .high, true⟩,
    by simp [fallback_result], rfl, rfl⟩

/-- Witness for C8: an empty (`None`) decomposition response on a concrete
input yields the two fixed fallback constraints, both high and verifiable. -/
theorem decompose_fallback_guarantee_witness :
    decompose "What causes tides?" (.ok none) = fallback_result "What causes tides?" ∧
    ∃ c ∈ (decompose "What causes tides?" (.ok none)).constraints,
      c.priority = ConstraintPriority.high ∧ c.verifiable = true :=
  decompose_fallback_guarantee "What causes tides?" (.ok none) (Or.inr (Or.inl rfl))

/-- Every text the paragraph-count repair RETURNS (as opposed to the
IndexError path) is the untouched input or has exactly the target count:
shared by the C6 and C7 developments. -/
theorem para_ok_exact_or_untouched (text : String) (expected : Nat) :
    ∀ result, enforce_paragraph_count text expected = .ok result →
      result = text ∨ (split_paragraphs result).length = expected := by
  intro result h
  unfold enforce_paragraph_count at h
  by_cases h1 : (split_paragraphs text).length = expected
  · rw [if_pos h1] at h
    exact Or.inl (Except.ok.inj h).symm
  · rw [if_neg h1] at h
    cases hp : paraEdit text expected with
    | error e =>
      rw [hp] at h
      exact absurd h (by simp)
    | ok r =>
      rw [hp] at h
      dsimp only at h
      by_cases h2 : (split_paragraphs r).length ≠ expected
      · rw [if_pos h2] at h
        exact Or.inl (Except.ok.inj h).symm
      · rw [if_neg h2] at h
        right
        rw [← Except.ok.inj h]
        exact not_not.mp h2

/-- On a text with no paragraphs at all (empty or whitespace-only) and a
positive target, the paragraph-count repair raises IndexError at
`paragraphs[max_idx]` instead of returning: shared by the C6 and C7
developments. -/
theorem para_error_on_no_paragraphs (text : String) (expected : Nat) (h : 0 < expected) :
    split_paragraphs text = [] →
      enforce_paragraph_count text expected = .error "IndexError: list index out of range" := by
  intro hemp
  obtain ⟨k, rfl⟩ : ∃ k, expected = k + 1 := ⟨expected - 1, (Nat.succ_pred_eq_of_pos h).symm⟩
  have hpe : paraEdit text (k + 1) = .error "IndexError: list index out of range" := by
    unfold paraEdit
    rw [hemp]
    simp [splitLoop]
  unfold enforce_paragraph_count
  rw [if_neg (by rw [hemp]; simp), hpe]

/-- Counterexample to Claim C6: at the whitespace-only input " " with parsed
requirement 1, `_enforce_paragraph_count` raises IndexError (the split loop
indexes the empty paragraph list) — it returns neither a text with exactly 1
paragraph nor the untouched original. -/
theorem enforce_paragraph_count_counterexample :
    enforce_paragraph_count " " 1 = .error "IndexError: list index out of range" ∧
    (enforce_paragraph_count " " 1).isOk = false := by
  decide

/-- Claim C6 (amended): for every input text and parsed paragraph-count
requirement N > 0, whenever the paragraph-count enforcement RETURNS a text it
is either a text with exactly N paragraphs under the double-newline split or
the untouched original — never a wrong count; but on an input with no
paragraphs at all (empty or whitespace-only) it raises IndexError instead of
returning. -/
theorem enforce_paragraph_count_exact_or_untouched (text : String) (expected : Nat)
    (h : 0 < expected) :
    (∀ result, enforce_paragraph_count text expected = .ok result →
      result = text ∨ (split_paragraphs result).length = expected) ∧
    (split_paragraphs text = [] →
      enforce_paragraph_count text expected = .error "IndexError: list index out of range") :=
  ⟨para_ok_exact_or_untouched text expected, para_error_on_no_paragraphs text expected h⟩

/-- Witness for amended C6: a two-paragraph text asked for three is split to
exactly three; the whitespace-only text asked for three raises. -/
theorem enforce_paragraph_count_exact_or_untouched_witness :
    ("aaa bbb.\n\nccc ddd.\n\neee" = "aaa bbb. ccc ddd.\n\neee" ∨
      (split_paragraphs "aaa bbb.\n\nccc ddd.\n\neee").length = 3) ∧
    enforce_paragraph_count " " 3 = .error "IndexError: list index out of range" :=
  ⟨(enforce_paragraph_count_exact_or_untouched "aaa bbb. ccc ddd.\n\neee" 3 (by decide)).1
      "aaa bbb.\n\nccc ddd.\n\neee" (by decide),
    (enforce_paragraph_count_exact_or_untouched " " 3 (by decide)).2 (by decide)⟩

/-- The bullet-count repair does not re-verify: asked to grow one
two-sentence bullet into three bullets, it splits once, cannot split further,
and returns an edited text with two bullets — neither the target count nor the
untouched input. Shared by the C7 counterexample and amended theorem. -/
theorem bulletNoReverify :
    enforce_bullet_count "- One sentence here. Two sentences here." 3 ≠
      "- One sentence here. Two sentences here." ∧
    bulletCount (enforce_bullet_count "- One sentence here. Two sentences here." 3) = 2 := by
  decide

/-- The first-word repair applies its prepends with no re-verification after
the loop: with the two parsed requirements (2, "foo") and (2, "bar") on the
same paragraph, the second prepend buries the first, and the edited text is
returned with paragraph 2 starting with "bar", leaving the (2, "foo")
requirement unmet. Shared by the C7 counterexample and amended theorem. -/
theorem firstWordConflict :
    enforce_first_word "Alpha one.\n\nBeta two." [(2, "foo"), (2, "bar")] ≠
      "Alpha one.\n\nBeta two." ∧
    asciiLower (pyStrip (nth_paragraph_first_word
        (enforce_first_word "Alpha one.\n\nBeta two." [(2, "foo"), (2, "bar")]) 2)) ≠
      asciiLower "foo" := by
  decide

/-- Counterexample to Claim C7 ("every structural repair re-verifies its own
postcondition and returns the untouched input whenever the target is still
not met"), falsified at concrete inputs by three of the four repairs: the
bullet-count repair returns an edited two-bullet text for a three-bullet
target; the paragraph-count repair raises IndexError on a whitespace-only
input instead of returning the untouched input; the first-word repair returns
an edited text in which an earlier requirement's target is unmet. -/
theorem enforcer_reverify_counterexample :
    (enforce_bullet_count "- One sentence here. Two sentences here." 3 ≠
        "- One sentence here. Two sentences here." ∧
      bulletCount (enforce_bullet_count "- One sentence here. Two sentences here." 3) ≠ 3) ∧
    enforce_paragraph_count " " 1 = .error "IndexError: list index out of range" ∧
    (enforce_first_word "Alpha one.\n\nBeta two." [(2, "foo"), (2, "bar")] ≠
        "Alpha one.\n\nBeta two." ∧
      asciiLower (pyStrip (nth_paragraph_first_word
          (enforce_first_word "Alpha one.\n\nBeta two." [(2, "foo"), (2, "bar")]) 2)) ≠
        asciiLower "foo") := by
  refine ⟨⟨bulletNoReverify.1, ?_⟩, ?_, firstWordConflict⟩
  · rw [bulletNoReverify.2]
    decide
  · exact para_error_on_no_paragraphs " " 1 (by decide) (by decide)

/-- The constrained-response pass returns the untouched text or one of the
three verbatim "My answer is ..." prepends. -/
theorem enforce_constrained_response_cases (text requirement_text : String) :
    enforce_constrained_response text requirement_text = text ∨
    enforce_constrained_response text requirement_text = "My answer is " ++ "yes" ++ ".\n\n" ++ text ∨
    enforce_constrained_response text requirement_text = "My answer is " ++ "no" ++ ".\n\n" ++ text ∨
    enforce_constrained_response text requirement_text = "My answer is " ++ "maybe" ++ ".\n\n" ++ text := by
  unfold enforce_constrained_response
  split_ifs
  · exact Or.inl rfl
  · exact Or.inl rfl
  · exact Or.inr (Or.inl rfl)
  · exact Or.inr (Or.inr (Or.inl rfl))
  · exact Or.inr (Or.inr (Or.inr rfl))

/-- The start-phrase repair returns the untouched text, or the text with the
required phrase prepended verbatim, or a constrained-response prepend — every
edit establishes the start-with target by construction of the prepend. -/
theorem enforce_start_phrase_prepend_only (text requirement_text : String)
    (required : Option String) :
    enforce_start_phrase text requirement_text required = text ∨
    (∃ r, required = some r ∧
      enforce_start_phrase text requirement_text required = r ++ "\n\n" ++ text) ∨
    enforce_start_phrase text requirement_text required = "My answer is " ++ "yes" ++ ".\n\n" ++ text ∨
    enforce_start_phrase text requirement_text required = "My answer is " ++ "no" ++ ".\n\n" ++ text ∨
    enforce_start_phrase text requirement_text required = "My answer is " ++ "maybe" ++ ".\n\n" ++ text := by
  unfold enforce_start_phrase
  by_cases hc : enforce_constrained_response text requirement_text ≠ text
  · rw [if_pos hc]
    rcases enforce_constrained_response_cases text requirement_text with h | h | h | h
    · exact absurd h hc
    · exact Or.inr (Or.inr (Or.inl h))
    · exact Or.inr (Or.inr (Or.inr (Or.inl h)))
    · exact Or.inr (Or.inr (Or.inr (Or.inr h)))
  · rw [if_neg hc]
    cases required with
    | none => exact Or.inl rfl
    | some req =>
      dsimp only
      by_cases hs : (asciiLower req).data.isPrefixOf (asciiLower (pyStrip text)).data = true
      · rw [if_pos hs]
        exact Or.inl rfl
      · rw [if_neg hs]
        exact Or.inr (Or.inl ⟨req, rfl, rfl⟩)

/-- Claim C7 (amended): of the Enforcer's structural repairs, the
PARAGRAPH-COUNT repair re-verifies its own postcondition after editing and
returns the untouched input whenever the target is still not met — except on
an input with no paragraphs (empty/whitespace-only) and a positive target,
where it raises IndexError instead of returning; the BULLET-COUNT repair does
not re-verify and can return an edited text that misses its target; the
FIRST-WORD repair prepends required words without re-verifying, so two parsed
requirements addressing the same paragraph can leave the earlier one unmet in
the returned edited text; the START-PHRASE repair returns the untouched input
or the input with the required phrase (or constrained answer) prepended
verbatim, establishing its start-with target by construction. -/
theorem enforcer_postconditions_amended (text : String) (expected : Nat) (h : 0 < expected)
    (t requirement_text : String) (required : Option String) :
    (∀ result, enforce_paragraph_count text expected = .ok result →
      result = text ∨ (split_paragraphs result).length = expected) ∧
    (split_paragraphs text = [] →
      enforce_paragraph_count text expected = .error "IndexError: list index out of range") ∧
    (enforce_bullet_count "- One sentence here. Two sentences here." 3 ≠
        "- One sentence here. Two sentences here." ∧
      bulletCount (enforce_bullet_count "- One sentence here. Two sentences here." 3) = 2) ∧
    (enforce_first_word "Alpha one.\n\nBeta two." [(2, "foo"), (2, "bar")] ≠
        "Alpha one.\n\nBeta two." ∧
      asciiLower (pyStrip (nth_paragraph_first_word
          (enforce_first_word "Alpha one.\n\nBeta two." [(2, "foo"), (2, "bar")]) 2)) ≠
        asciiLower "foo") ∧
    (enforce_start_phrase t requirement_text required = t ∨
      (∃ r, required = some r ∧
        enforce_start_phrase t requirement_text required = r ++ "\n\n" ++ t) ∨
      enforce_start_phrase t requirement_text required = "My answer is " ++ "yes" ++ ".\n\n" ++ t ∨
      enforce_start_phrase t requirement_text required = "My answer is " ++ "no" ++ ".\n\n" ++ t ∨
      enforce_start_phrase t requirement_text required = "My answer is " ++ "maybe" ++ ".\n\n" ++ t) :=
  ⟨para_ok_exact_or_untouched text expected, para_error_on_no_paragraphs text expected h,
    bulletNoReverify, firstWordConflict,
    enforce_start_phrase_prepend_only t requirement_text required⟩

/-- Witness for amended C7 at concrete inputs: a three-paragraph text merged
to exactly two, and a start-phrase requirement prepended verbatim. -/
theorem enforcer_postconditions_amended_witness :
    ("a b\n\nc" = "a\n\nb\n\nc" ∨ (split_paragraphs "a b\n\nc").length = 2) ∧
    (enforce_bullet_count "- One sentence here. Two sentences here." 3 ≠
        "- One sentence here. Two sentences here." ∧
      bulletCount (enforce_bullet_count "- One sentence here. Two sentences here." 3) = 2) ∧
    (enforce_start_phrase "The tides are caused by the Moon." "begin with 'Start:'"
        (some "Start:") = "The tides are caused by the Moon." ∨
      (∃ r, (some "Start:" : Option String) = some r ∧
        enforce_start_phrase "The tides are caused by the Moon." "begin with 'Start:'"
          (some "Start:") = r ++ "\n\n" ++ "The tides are caused by the Moon.") ∨
      enforce_start_phrase "The tides are caused by the Moon." "begin with 'Start:'"
          (some "Start:") = "My answer is " ++ "yes" ++ ".\n\n" ++ "The tides are caused by the Moon." ∨
      enforce_start_phrase "The tides are caused by the Moon." "begin with 'Start:'"
          (some "Start:") = "My answer is " ++ "no" ++ ".\n\n" ++ "The tides are caused by the Moon." ∨
      enforce_start_phrase "The tides are caused by the Moon." "begin with 'Start:'"
          (some "Start:") = "My answer is " ++ "maybe" ++ ".\n\n" ++ "The tides are caused by the Moon.") := by
  have h := enforcer_postconditions_amended "a\n\nb\n\nc" 2 (by decide)
    "The tides are caused by the Moon." "begin with 'Start:'" (some "Start:")
  exact ⟨h.1 "a b\n\nc" (by decide), h.2.2.1, h.2.2.2.2⟩

/-- With a non-blended model answer, the selection step keeps the model's
winner, stays non-blended, and picks the verbatim text of the chosen side. -/
theorem trust_step_nonblended (original_draft refined_output : String) (blend_enabled : Bool)
    (result : TrustRaw) (hbl : result.blended.getD false = false) :
    trust_step original_draft refined_output blend_enabled result =
      (result.winner.getD "refined", false,
        if result.winner.getD "refined" = "draft" then original_draft else refined_output) := by
  unfold trust_step
  rw [if_neg (by simp [hbl]), if_neg (by simp [hbl])]

/-- Whenever the selection step reports non-blended, its output text is one of
the two verbatim inputs. -/
theorem trust_step_output_verbatim (original_draft refined_output : String)
    (blend_enabled : Bool) (result : TrustRaw)
    (hb : (trust_step original_draft refined_output blend_enabled result).2.1 = false) :
    (trust_step original_draft refined_output blend_enabled result).2.2 = original_draft ∨
      (trust_step original_draft refined_output blend_enabled result).2.2 = refined_output := by
  unfold trust_step at hb ⊢
  by_cases h1 : (result.blended.getD false : Prop) ∧ ¬(blend_enabled : Prop)
  · rw [if_pos h1]
    by_cases hsc : result.refined_score.getD 60 ≥ result.draft_score.getD 50
    · simp [hsc]
    · simp [hsc]
  · rw [if_neg h1] at hb ⊢
    by_cases h2 : (result.blended.getD false : Prop)
    · rw [if_pos h2] at hb
      simp at hb
    · rw [if_neg h2]
      by_cases hw : result.winner.getD "refined" = "draft"
      · simp [hw]
      · simp [hw]

/-- The safety net either substitutes the verbatim draft or passes the step's
output through. -/
theorem trust_final_output_cases (draft_analysis refined_analysis : Analysis)
    (constraints : List Constraint) (original_draft : String)
    (step : String × Bool × String) :
    (trust_final draft_analysis refined_analysis constraints original_draft step).2
        = original_draft ∨
      (trust_final draft_analysis refined_analysis constraints original_draft step).2
        = step.2.2 := by
  unfold trust_final
  split_ifs with h
  · cases hov : check_structural_override draft_analysis refined_analysis constraints
    · exact Or.inr rfl
    · exact Or.inl rfl
  · exact Or.inr rfl

/-- Claim C5: (a) when the model picks a non-blended winner other than draft
but the structural safety net finds a regression some constraint description
mentions, the final winner is overridden to draft and the output is the
original draft verbatim; (b) every non-blended result's final output is the
exact original draft or refined text; (c) in particular the quote-wrap
regression (draft starts and ends with a quote, refined does not, a
constraint description mentions quotation/quote/wrap) makes the safety net
fire with "quotation wrapping lost". -/
theorem trust_override_and_verbatim (original_draft refined_output : String)
    (constraints : List Constraint) (blend_enabled : Bool)
    (draft_analysis refined_analysis : Analysis)
    (resp : Except String (Option TrustRaw)) :
    (∀ result r, resp = .ok (some result) →
      pyStrip original_draft ≠ pyStrip refined_output →
      result.blended.getD false = false →
      result.winner.getD "refined" ≠ "draft" →
      check_structural_override draft_analysis refined_analysis constraints = some r →
      (trust_and_rank original_draft refined_output constraints blend_enabled
          draft_analysis refined_analysis resp).winner = "draft" ∧
        (trust_and_rank original_draft refined_output constraints blend_enabled
          draft_analysis refined_analysis resp).final_output = original_draft) ∧
    ((trust_and_rank original_draft refined_output constraints blend_enabled
        draft_analysis refined_analysis resp).blended = false →
      (trust_and_rank original_draft refined_output constraints blend_enabled
          draft_analysis refined_analysis resp).final_output = original_draft ∨
        (trust_and_rank original_draft refined_output constraints blend_enabled
          draft_analysis refined_analysis resp).final_output = refined_output) ∧
    (draft_analysis.starts_with_quote = true → draft_analysis.ends_with_quote = true →
      ¬(refined_analysis.starts_with_quote = true ∧ refined_analysis.ends_with_quote = true) →
      mentionsAny constraints ["quotation", "quote", "wrap"] = true →
      check_structural_override draft_analysis refined_analysis constraints =
        some "quotation wrapping lost") := by
  refine ⟨?_, ?_, ?_⟩
  · intro result r hresp hne hbl hwin hov
    subst hresp
    unfold trust_and_rank
    rw [if_neg hne]
    dsimp only
    rw [trust_step_nonblended original_draft refined_output blend_enabled result hbl]
    unfold trust_final
    rw [if_pos ⟨hwin, rfl⟩, hov]
    exact ⟨rfl, rfl⟩
  · intro hb
    unfold trust_and_rank at hb ⊢
    split_ifs at hb ⊢ with hid
    · exact Or.inr rfl
    · rcases resp with e | o
      · exact Or.inr rfl
      · rcases o with _ | result
        · exact Or.inr rfl
        · dsimp only at hb ⊢
          rcases trust_final_output_cases draft_analysis refined_analysis constraints
            original_draft (trust_step original_draft refined_output blend_enabled result)
            with hcase | hcase
          · exact Or.inl hcase
          · rcases trust_step_output_verbatim original_draft refined_output blend_enabled
              result hb with hs | hs
            · exact Or.inl (hcase.trans hs)
            · exact Or.inr (hcase.trans hs)
  · intro h1 h2 h3 h4
    unfold check_structural_override
    rw [if_pos ⟨h1, h2, h3, h4⟩]

/-- Witness for C5: quote-wrapped draft, refined output that dropped the
wrapping, a constraint mentioning quotation, model picks refined non-blended —
the winner flips to draft and the output is the draft verbatim. -/
theorem trust_override_and_verbatim_witness :
    (trust_and_rank "\"Hello there.\"" "Hello there." [w5Constraint] true
        w5DraftAnalysis w5RefinedAnalysis (.ok (some w5Raw))).winner = "draft" ∧
    (trust_and_rank "\"Hello there.\"" "Hello there." [w5Constraint] true
        w5DraftAnalysis w5RefinedAnalysis (.ok (some w5Raw))).final_output = "\"Hello there.\"" := by
  have h := trust_override_and_verbatim "\"Hello there.\"" "Hello there." [w5Constraint] true
    w5DraftAnalysis w5RefinedAnalysis (.ok (some w5Raw))
  exact h.1 w5Raw "quotation wrapping lost" rfl (by decide) rfl (by decide)
    (h.2.2 rfl rfl (by decide) (by decide))

end ThinkTwice
